import Mathlib

/-
Verification of the amiquip connection-lifecycle core: a shallow embedding of
`src/connection.rs`, `src/delivery.rs` and `src/errors.rs`.

Modelling conventions:
- Rust `usize`/`u16`/`u32`/`u64` are modelled as `Nat` (no arithmetic in this
  core can overflow: the only computed constant is `16 << 20 < 2^32`).
- `Result<T> = Result<T, Error>` is modelled by the inductive `RResult`.
- External collaborators (`Channel`, `Channel0Handle`, the engine's
  `JoinHandle`) are modelled at their consumed boundary: a record carrying the
  observable outcome of each operation the core invokes on them.
- A Rust panic (from `assert_eq!`) and the list of frames forwarded to a
  channel are made explicit in the return type, so that "halts before any
  frame transmission" is a statement about the model.
-/

namespace Amiquip

/-- Error taxonomy of `src/errors.rs` (`enum ErrorKind`), variant for variant.
Numeric payloads (`u16`, `u32`) are `Nat`. -/
inductive ErrorKind where
  | UnexpectedSocketClose
  | MalformedFrame
  | Io
  | TlsHandshake
  | UnsupportedAuthMechanism (available : String)
  | UnsupportedLocale (available : String)
  | FrameMaxTooSmall (min : Nat)
  | PollTimeout
  | SaslSecureNotSupported
  | InvalidCredentials
  | MissedServerHeartbeats
  | ServerClosedConnection (code : Nat) (message : String)
  | ClientClosedConnection
  | ServerClosedChannel (channel : Nat) (code : Nat) (message : String)
  | ClientClosedChannel
  | EventLoopClientDropped
  | EventLoopDropped
  | FrameUnexpected
  | ForkFailed
  | ExhaustedChannelIds
  | UnavailableChannelId (id : Nat)
  | ClientException
  | ReceivedFrameWithBogusChannelId (id : Nat)
  | IoThreadPanic (message : String)
  | DuplicateConsumerTag (channel : Nat) (tag : String)
  | UnknownConsumerTag (channel : Nat) (tag : String)
  | Nonexhaustive
deriving DecidableEq, Repr

/-- The `#[fail(display = ...)]` strings of `src/errors.rs`, one per variant. -/
def ErrorKind.displayText : ErrorKind → String
  | .UnexpectedSocketClose => "underlying socket closed unexpectedly"
  | .MalformedFrame => "received malformed data - expected AMQP frame"
  | .Io => "I/O error"
  | .TlsHandshake => "TLS handshake failed"
  | .UnsupportedAuthMechanism a =>
      "requested auth mechanism unavailable (available = " ++ a ++ ")"
  | .UnsupportedLocale a =>
      "requested locale unavailable (available = " ++ a ++ ")"
  | .FrameMaxTooSmall m =>
      "requested frame max is too small (min = " ++ toString m ++ ")"
  | .PollTimeout => "timeout occurred while waiting for poll events"
  | .SaslSecureNotSupported => "SASL secure/secure-ok exchanges are not supported"
  | .InvalidCredentials => "invalid credentials"
  | .MissedServerHeartbeats => "missed heartbeats from server"
  | .ServerClosedConnection code message =>
      "server closed connection (code=" ++ toString code ++ " message=" ++ message ++ ")"
  | .ClientClosedConnection => "client closed connection"
  | .ServerClosedChannel ch code message =>
      "server closed channel " ++ toString ch ++ " (code=" ++ toString code
        ++ ", message=" ++ message ++ ")"
  | .ClientClosedChannel => "channel has been closed"
  | .EventLoopClientDropped =>
      "i/o loop thread tried to communicate with a nonexistent client"
  | .EventLoopDropped => "i/o loop dropped sending side of a channel"
  | .FrameUnexpected => "AMQP protocol error - received unexpected frame"
  | .ForkFailed => "fork failed"
  | .ExhaustedChannelIds => "no more channel ids are available"
  | .UnavailableChannelId id =>
      "requested channel id " ++ toString id ++ " is unavailable"
  | .ClientException =>
      "internal client exception - received unhandled frames from server"
  | .ReceivedFrameWithBogusChannelId id =>
      "received message for nonexistent channel " ++ toString id
  | .IoThreadPanic message => "I/O thread died unexpectedly: " ++ message
  | .DuplicateConsumerTag ch tag =>
      "server sent duplicate consumer tag for channel " ++ toString ch ++ ": " ++ tag
  | .UnknownConsumerTag ch tag =>
      "received delivery with unknown consumer tag for channel " ++ toString ch
        ++ ": " ++ tag
  | .Nonexhaustive => "invalid error case"

/-- The `failure::Context<ErrorKind>` record held by an `Error`: the kind plus
causal-chain and backtrace metadata (each rendered as an optional string). -/
structure Context where
  kind : ErrorKind
  cause : Option String
  backtrace : Option String
deriving DecidableEq, Repr

/-- `std::sync::Arc`: shared, immutable ownership of one record.  In the pure
model an `Arc` is identified with the record it points to; `Arc::clone` hands
back the very same record (a pointer copy, no reconstruction). -/
structure Arc (α : Type) where
  value : α
deriving DecidableEq, Repr

/-- `Arc::clone`: duplicates the handle, sharing the identical record. -/
def Arc.clone {α : Type} (a : Arc α) : Arc α := a

/-- `struct Error { ctx: Arc<Context<ErrorKind>> }` of `src/errors.rs`. -/
structure Error where
  ctx : Arc Context
deriving DecidableEq, Repr

/-- `Error::kind`: reads the kind out of the shared context record. -/
def Error.kind (e : Error) : ErrorKind := e.ctx.value.kind

/-- `Fail::cause` for `Error`: delegates to the shared context record. -/
def Error.cause (e : Error) : Option String := e.ctx.value.cause

/-- `Fail::backtrace` for `Error`: delegates to the shared context record. -/
def Error.backtrace (e : Error) : Option String := e.ctx.value.backtrace

/-- `#[derive(Clone)]` on `Error`: clones the single field `ctx`, which for an
`Arc` is a pointer copy sharing the identical context record. -/
def Error.clone (e : Error) : Error := { ctx := e.ctx.clone }

/-- `Display for Error`: `self.ctx.fmt(f)`, which renders the context's kind. -/
def Error.display (e : Error) : String := e.ctx.value.kind.displayText

/-- `impl From<ErrorKind> for Error`: `Error::from(Context::new(kind))`, a
fresh context record around the kind. -/
def Error.fromKind (kind : ErrorKind) : Error :=
  { ctx := { value := { kind := kind, cause := none, backtrace := none } } }

/-- `Result<T>` = `Result<T, Error>`, the alias of `src/errors.rs`. -/
inductive RResult (α : Type) where
  | ok (value : α)
  | error (err : Error)
deriving DecidableEq, Repr

/-- `std::time::Duration`, opaque to this core. -/
structure Duration where
  nanos : Nat
deriving DecidableEq, Repr

/-- `struct ConnectionTuning` of `src/connection.rs`. -/
structure ConnectionTuning where
  mem_channel_bound : Nat
  buffered_writes_high_water : Nat
  buffered_writes_low_water : Nat
  poll_timeout : Option Duration
deriving DecidableEq, Repr

/-- `impl Default for ConnectionTuning`. -/
def ConnectionTuning.default : ConnectionTuning :=
  { mem_channel_bound := 16
    buffered_writes_high_water := 16 <<< 20
    buffered_writes_low_water := 0
    poll_timeout := none }

/-- Setter `ConnectionTuning::mem_channel_bound` (consuming, `..self`). -/
def ConnectionTuning.with_mem_channel_bound
    (self : ConnectionTuning) (mem_channel_bound : Nat) : ConnectionTuning :=
  { self with mem_channel_bound := mem_channel_bound }

/-- Setter `ConnectionTuning::buffered_writes_high_water`. -/
def ConnectionTuning.with_buffered_writes_high_water
    (self : ConnectionTuning) (buffered_writes_high_water : Nat) : ConnectionTuning :=
  { self with buffered_writes_high_water := buffered_writes_high_water }

/-- Setter `ConnectionTuning::buffered_writes_low_water`. -/
def ConnectionTuning.with_buffered_writes_low_water
    (self : ConnectionTuning) (buffered_writes_low_water : Nat) : ConnectionTuning :=
  { self with buffered_writes_low_water := buffered_writes_low_water }

/-- Setter `ConnectionTuning::poll_timeout`. -/
def ConnectionTuning.with_poll_timeout
    (self : ConnectionTuning) (poll_timeout : Option Duration) : ConnectionTuning :=
  { self with poll_timeout := poll_timeout }

/-- `AmqpProperties`, external collaborator: structured message metadata,
opaque to this core, modelled as a raw key/value record. -/
structure AmqpProperties where
  raw : List (String × String)
deriving DecidableEq, Repr

/-- `struct Delivery` of `src/delivery.rs`.  `content : Vec<u8>` is a list of
byte values. -/
structure Delivery where
  channel_id : Nat
  delivery_tag : Nat
  redelivered : Bool
  exchange : String
  routing_key : String
  content : List Nat
  properties : AmqpProperties
deriving DecidableEq, Repr

/-- `#[derive(Clone)]` on `Delivery`: a field-for-field copy. -/
def Delivery.clone (d : Delivery) : Delivery :=
  { channel_id := d.channel_id
    delivery_tag := d.delivery_tag
    redelivered := d.redelivered
    exchange := d.exchange
    routing_key := d.routing_key
    content := d.content
    properties := d.properties }

/-- One acknowledgment command forwarded to a channel's frame-sending path:
which `basic_*` operation was invoked and with exactly which arguments. -/
inductive AckCall where
  | basicAck (delivery : Delivery) (multiple : Bool)
  | basicNack (delivery : Delivery) (multiple : Bool) (requeue : Bool)
  | basicReject (delivery : Delivery) (requeue : Bool)
deriving DecidableEq, Repr

/-- `Channel`, external collaborator: the consumed interface is `channel_id()`
plus the frame-sending operations `basic_ack`/`basic_nack`/`basic_reject`.
`sendOutcome` is the engine's response to a forwarded acknowledgment command. -/
structure Channel where
  channelId : Nat
  sendOutcome : AckCall → RResult Unit

/-- `Channel::channel_id`. -/
def Channel.channel_id (c : Channel) : Nat := c.channelId

/-- `Channel::basic_ack(delivery, multiple)`: forwards the command and yields
the engine's outcome. -/
def Channel.basic_ack (c : Channel) (delivery : Delivery) (multiple : Bool) :
    RResult Unit :=
  c.sendOutcome (AckCall.basicAck delivery multiple)

/-- `Channel::basic_nack(delivery, multiple, requeue)`. -/
def Channel.basic_nack (c : Channel) (delivery : Delivery)
    (multiple requeue : Bool) : RResult Unit :=
  c.sendOutcome (AckCall.basicNack delivery multiple requeue)

/-- `Channel::basic_reject(delivery, requeue)`. -/
def Channel.basic_reject (c : Channel) (delivery : Delivery) (requeue : Bool) :
    RResult Unit :=
  c.sendOutcome (AckCall.basicReject delivery requeue)

/-- How an acknowledgment method terminated: a panic raised by the
`assert_eq!` channel-affinity check (carrying the assertion's message, not an
`Error`), or an ordinary return of a `Result`. -/
inductive AckExec where
  | panicked (message : String)
  | returned (result : RResult Unit)
deriving DecidableEq, Repr

/-- The full observable behaviour of one acknowledgment method call: the
frames forwarded to the channel's frame-sending path (in order), and how the
call terminated. -/
structure AckRun where
  forwardedFrames : List AckCall
  outcome : AckExec
deriving DecidableEq, Repr

/-- `Delivery::ack(self, channel, multiple)`: `assert_eq!(self.channel_id,
channel.channel_id(), "cannot ack delivery on different channel")`, then
`channel.basic_ack(self, multiple)`.  A failing assertion panics before any
frame is forwarded. -/
def Delivery.ack (d : Delivery) (channel : Channel) (multiple : Bool) : AckRun :=
  if d.channel_id = channel.channel_id then
    { forwardedFrames := [AckCall.basicAck d multiple]
      outcome := AckExec.returned (channel.basic_ack d multiple) }
  else
    { forwardedFrames := []
      outcome := AckExec.panicked "cannot ack delivery on different channel" }

/-- `Delivery::nack(self, channel, multiple, requeue)`: affinity assertion,
then `channel.basic_nack(self, multiple, requeue)`. -/
def Delivery.nack (d : Delivery) (channel : Channel) (multiple requeue : Bool) :
    AckRun :=
  if d.channel_id = channel.channel_id then
    { forwardedFrames := [AckCall.basicNack d multiple requeue]
      outcome := AckExec.returned (channel.basic_nack d multiple requeue) }
  else
    { forwardedFrames := []
      outcome := AckExec.panicked "cannot nack delivery on different channel" }

/-- `Delivery::reject(self, channel, requeue)`: affinity assertion, then
`channel.basic_reject(self, requeue)`. -/
def Delivery.reject (d : Delivery) (channel : Channel) (requeue : Bool) :
    AckRun :=
  if d.channel_id = channel.channel_id then
    { forwardedFrames := [AckCall.basicReject d requeue]
      outcome := AckExec.returned (channel.basic_reject d requeue) }
  else
    { forwardedFrames := []
      outcome := AckExec.panicked "cannot reject delivery on different channel" }

/-- What `std::thread::JoinHandle::join` will report for the engine thread:
either the thread terminated via an uncaught panic (the payload is modelled by
its `{:?}` rendition), or it returned its terminal `Result<()>`. -/
inductive JoinResult where
  | panicked (payload : String)
  | completed (result : RResult Unit)
deriving DecidableEq, Repr

/-- `JoinHandle<Result<()>>`, external collaborator: joining it yields the
engine thread's termination. -/
structure JoinHandle where
  joinResult : JoinResult
deriving DecidableEq, Repr

/-- `JoinHandle::join`. -/
def JoinHandle.join (handle : JoinHandle) : JoinResult := handle.joinResult

/-- `format!("\x7b:?\x7d", err)` applied to the panic payload; the payload is
modelled directly by its textual rendition. -/
def formatDebug (payload : String) : String := payload

/-- `Channel0Handle`, external collaborator: control-plane proxy.  The
consumed operation for shutdown is `close_connection() -> Result<()>`, whose
outcome is recorded in the field. -/
structure Channel0Handle where
  closeConnectionResult : RResult Unit
deriving DecidableEq, Repr

/-- `Channel0Handle::close_connection`: sends the close-connection command
through the control plane and yields its outcome. -/
def Channel0Handle.close_connection (h : Channel0Handle) : RResult Unit :=
  h.closeConnectionResult

/-- `FieldTable`, external collaborator: the server-properties snapshot. -/
structure FieldTable where
  entries : List (String × String)
deriving DecidableEq, Repr

/-- `struct Connection` of `src/connection.rs`: an optional engine-thread
token (`join_handle`), the control-plane proxy, and the handshake snapshot. -/
structure Connection where
  join_handle : Option JoinHandle
  channel0 : Channel0Handle
  server_properties : FieldTable
deriving DecidableEq, Repr

/-- Observable side effects of one run of the shutdown protocol: whether the
close-connection command was sent to the control plane, and whether the engine
thread was joined. -/
structure CloseEffects where
  sentCloseCommand : Bool
  joined : Bool
deriving DecidableEq, Repr

/-- No side effects: nothing sent, nothing joined. -/
def CloseEffects.idle : CloseEffects := { sentCloseCommand := false, joined := false }

/-- `Connection::close_impl` of `src/connection.rs:123-136`:
`if let Some(join_handle) = self.join_handle.take() \x7b
   self.channel0.close_connection()?;
   join_handle.join().map_err(|err| ErrorKind::IoThreadPanic(...))?
 \x7d else \x7b Ok(()) \x7d`.
Returns the post-state of the connection, the `Result<()>`, and the effects. -/
def Connection.close_impl (conn : Connection) :
    Connection × RResult Unit × CloseEffects :=
  match conn.join_handle with
  | some handle =>
    let taken : Connection := { conn with join_handle := none }
    match taken.channel0.close_connection with
    | RResult.error e =>
        (taken, RResult.error e, { sentCloseCommand := true, joined := false })
    | RResult.ok _ =>
        match handle.join with
        | JoinResult.panicked payload =>
            (taken,
             RResult.error
               (Error.fromKind (ErrorKind.IoThreadPanic (formatDebug payload))),
             { sentCloseCommand := true, joined := true })
        | JoinResult.completed r =>
            (taken, r, { sentCloseCommand := true, joined := true })
  | none => (conn, RResult.ok (), CloseEffects.idle)

/-- `impl Drop for Connection`: `let _ = self.close_impl();` — runs the
shutdown protocol and discards the result. -/
def Connection.dropCleanup (conn : Connection) : Connection × CloseEffects :=
  let step := conn.close_impl
  (step.1, step.2.2)

/-- `Connection::close(mut self)`: runs `close_impl` and returns its result;
`self` is then consumed, so its `Drop` runs `close_impl` once more at the end
of `close`.  Yields the result, the first run's effects, and the effects of
that implicit drop. -/
def Connection.close (conn : Connection) :
    RResult Unit × CloseEffects × CloseEffects :=
  let step := conn.close_impl
  let dropped := step.1.dropCleanup
  (step.2.1, step.2.2, dropped.2)

/- ### Concrete fixtures used by witnesses and counterexamples -/

/-- A delivery that arrived on channel 1. -/
def deliveryOnOne : Delivery :=
  { channel_id := 1
    delivery_tag := 7
    redelivered := false
    exchange := ""
    routing_key := "key"
    content := [104, 105]
    properties := { raw := [] } }

/-- A channel with id 1 whose frame-sending path accepts every command. -/
def channelOne : Channel :=
  { channelId := 1, sendOutcome := fun _ => RResult.ok () }

/-- A channel with id 2 whose frame-sending path accepts every command. -/
def channelTwo : Channel :=
  { channelId := 2, sendOutcome := fun _ => RResult.ok () }

/-- An engine-thread handle whose join reports a normal return with `Ok(())`. -/
def engineOkHandle : JoinHandle :=
  { joinResult := JoinResult.completed (RResult.ok ()) }

/-- The error the control plane reports when the close-command send fails. -/
def sendFailErr : Error := Error.fromKind ErrorKind.EventLoopDropped

/-- A connection whose engine token is present but whose control-plane
close-command send fails. -/
def connSendFail : Connection :=
  { join_handle := some engineOkHandle
    channel0 := { closeConnectionResult := RResult.error sendFailErr }
    server_properties := { entries := [] } }

/-- A connection whose engine token is present, whose close-command send
succeeds, and whose engine thread terminated normally with a terminal error
(a broker-forced close). -/
def connForcedClose : Connection :=
  { join_handle :=
      some { joinResult :=
               JoinResult.completed
                 (RResult.error
                   (Error.fromKind
                     (ErrorKind.ServerClosedConnection 320 "CONNECTION_FORCED"))) }
    channel0 := { closeConnectionResult := RResult.ok () }
    server_properties := { entries := [] } }

/-- A connection whose engine thread terminated via an uncaught panic. -/
def connPanickedEngine : Connection :=
  { join_handle := some { joinResult := JoinResult.panicked "engine fault" }
    channel0 := { closeConnectionResult := RResult.ok () }
    server_properties := { entries := [] } }

/- ### Theorems for the claims -/

/-- C6: cloning an `Error` shares the identical underlying context record
(the `Arc`-held `Context`), so the clone's kind, causal chain and backtrace
are the same as the original's rather than reconstructed; in particular
`e.clone().kind() == e.kind()`. -/
theorem error_clone_shares_context_record (e : Error) :
    e.clone.ctx = e.ctx
    ∧ e.clone.kind = e.kind
    ∧ e.clone.cause = e.cause
    ∧ e.clone.backtrace = e.backtrace :=
  ⟨rfl, rfl, rfl, rfl⟩

/-- C7: each of the four `ConnectionTuning` setters returns a new value equal
to the receiver except that exactly the one named field is replaced by the
supplied argument; the other three fields are unchanged (the receiver itself
is a pure value and is never mutated). -/
theorem tuning_setters_replace_exactly_one_field
    (t : ConnectionTuning) (n hw lw : Nat) (pt : Option Duration) :
    ((t.with_mem_channel_bound n).mem_channel_bound = n
      ∧ (t.with_mem_channel_bound n).buffered_writes_high_water
          = t.buffered_writes_high_water
      ∧ (t.with_mem_channel_bound n).buffered_writes_low_water
          = t.buffered_writes_low_water
      ∧ (t.with_mem_channel_bound n).poll_timeout = t.poll_timeout)
    ∧ ((t.with_buffered_writes_high_water hw).buffered_writes_high_water = hw
      ∧ (t.with_buffered_writes_high_water hw).mem_channel_bound
          = t.mem_channel_bound
      ∧ (t.with_buffered_writes_high_water hw).buffered_writes_low_water
          = t.buffered_writes_low_water
      ∧ (t.with_buffered_writes_high_water hw).poll_timeout = t.poll_timeout)
    ∧ ((t.with_buffered_writes_low_water lw).buffered_writes_low_water = lw
      ∧ (t.with_buffered_writes_low_water lw).mem_channel_bound
          = t.mem_channel_bound
      ∧ (t.with_buffered_writes_low_water lw).buffered_writes_high_water
          = t.buffered_writes_high_water
      ∧ (t.with_buffered_writes_low_water lw).poll_timeout = t.poll_timeout)
    ∧ ((t.with_poll_timeout pt).poll_timeout = pt
      ∧ (t.with_poll_timeout pt).mem_channel_bound = t.mem_channel_bound
      ∧ (t.with_poll_timeout pt).buffered_writes_high_water
          = t.buffered_writes_high_water
      ∧ (t.with_poll_timeout pt).buffered_writes_low_water
          = t.buffered_writes_low_water) :=
  ⟨⟨rfl, rfl, rfl, rfl⟩, ⟨rfl, rfl, rfl, rfl⟩,
   ⟨rfl, rfl, rfl, rfl⟩, ⟨rfl, rfl, rfl, rfl⟩⟩

/-- C8: the default `ConnectionTuning` has `mem_channel_bound = 16`,
`buffered_writes_high_water = 16 MiB = 16 * 2^20` bytes,
`buffered_writes_low_water = 0`, and no poll timeout. -/
theorem tuning_default_values :
    ConnectionTuning.default.mem_channel_bound = 16
    ∧ ConnectionTuning.default.buffered_writes_high_water = 16 * 2 ^ 20
    ∧ ConnectionTuning.default.buffered_writes_low_water = 0
    ∧ ConnectionTuning.default.poll_timeout = none := by
  refine ⟨rfl, by decide, rfl, rfl⟩

/-- C10: `Delivery` is `Clone`; the clone is field-for-field equal to the
original (same `channel_id`, `delivery_tag`, `redelivered`, `exchange`,
`routing_key`, `content`, `properties`), and applying any acknowledgment
method to the clone behaves identically to applying it to the original — so
nothing in this core prevents acknowledging both, each forwarding a frame
with the same delivery tag. -/
theorem delivery_clone_field_equal_and_ack_identical (d : Delivery) :
    d.clone = d
    ∧ d.clone.channel_id = d.channel_id
    ∧ d.clone.delivery_tag = d.delivery_tag
    ∧ d.clone.redelivered = d.redelivered
    ∧ d.clone.exchange = d.exchange
    ∧ d.clone.routing_key = d.routing_key
    ∧ d.clone.content = d.content
    ∧ d.clone.properties = d.properties
    ∧ (∀ (c : Channel) (multiple requeue : Bool),
        d.clone.ack c multiple = d.ack c multiple
        ∧ d.clone.nack c multiple requeue = d.nack c multiple requeue
        ∧ d.clone.reject c requeue = d.reject c requeue) :=
  ⟨rfl, rfl, rfl, rfl, rfl, rfl, rfl, rfl, fun _ _ _ => ⟨rfl, rfl, rfl⟩⟩

/-- C3: on any channel whose id differs from the delivery's, each of
`ack`/`nack`/`reject` halts via a panic (the `assert_eq!` contract-violation
signal) before any acknowledgment frame is forwarded to the channel's
frame-sending path, and the mismatch is never turned into an ordinary
`Error`/`ErrorKind` return. -/
theorem ack_wrong_channel_panics_before_send
    (d : Delivery) (c : Channel) (multiple requeue : Bool)
    (h : d.channel_id ≠ c.channel_id) :
    (d.ack c multiple).forwardedFrames = []
    ∧ (d.ack c multiple).outcome
        = AckExec.panicked "cannot ack delivery on different channel"
    ∧ (∀ res, (d.ack c multiple).outcome ≠ AckExec.returned res)
    ∧ (d.nack c multiple requeue).forwardedFrames = []
    ∧ (d.nack c multiple requeue).outcome
        = AckExec.panicked "cannot nack delivery on different channel"
    ∧ (∀ res, (d.nack c multiple requeue).outcome ≠ AckExec.returned res)
    ∧ (d.reject c requeue).forwardedFrames = []
    ∧ (d.reject c requeue).outcome
        = AckExec.panicked "cannot reject delivery on different channel"
    ∧ (∀ res, (d.reject c requeue).outcome ≠ AckExec.returned res) := by
  simp [Delivery.ack, Delivery.nack, Delivery.reject, if_neg h]

/-- C3 witness: a delivery from channel 1 acknowledged against a channel with
id 2 forwards no frame and panics. -/
theorem ack_wrong_channel_panics_before_send_witness :
    deliveryOnOne.channel_id ≠ channelTwo.channel_id
    ∧ (deliveryOnOne.ack channelTwo true).forwardedFrames = []
    ∧ (deliveryOnOne.ack channelTwo true).outcome
        = AckExec.panicked "cannot ack delivery on different channel" := by
  refine ⟨by decide, ?_, ?_⟩
  · exact (ack_wrong_channel_panics_before_send deliveryOnOne channelTwo
      true true (by decide)).1
  · exact (ack_wrong_channel_panics_before_send deliveryOnOne channelTwo
      true true (by decide)).2.1

/-- C5: on the delivery's own channel, `ack` forwards exactly the delivery
and the supplied `multiple` flag to `basic_ack`, `nack` forwards exactly the
delivery, `multiple` and `requeue` to `basic_nack`, and `reject` forwards
exactly the delivery and `requeue` to `basic_reject`, each returning that
forwarding call's outcome unchanged. -/
theorem ack_matching_channel_forwards_exact_args
    (d : Delivery) (c : Channel) (multiple requeue : Bool)
    (h : d.channel_id = c.channel_id) :
    d.ack c multiple =
      { forwardedFrames := [AckCall.basicAck d multiple]
        outcome := AckExec.returned (c.basic_ack d multiple) }
    ∧ d.nack c multiple requeue =
      { forwardedFrames := [AckCall.basicNack d multiple requeue]
        outcome := AckExec.returned (c.basic_nack d multiple requeue) }
    ∧ d.reject c requeue =
      { forwardedFrames := [AckCall.basicReject d requeue]
        outcome := AckExec.returned (c.basic_reject d requeue) } := by
  simp [Delivery.ack, Delivery.nack, Delivery.reject, if_pos h]

/-- C5 witness: a delivery from channel 1 acknowledged on a channel with id 1
forwards exactly the `basic_ack` command and returns its outcome. -/
theorem ack_matching_channel_forwards_exact_args_witness :
    deliveryOnOne.channel_id = channelOne.channel_id
    ∧ deliveryOnOne.ack channelOne true =
        { forwardedFrames := [AckCall.basicAck deliveryOnOne true]
          outcome := AckExec.returned (channelOne.basic_ack deliveryOnOne true) } := by
  refine ⟨rfl, ?_⟩
  exact (ack_matching_channel_forwards_exact_args deliveryOnOne channelOne
    true true rfl).1

/-- C1: shutdown is idempotent — the first run of `close_impl` (whether via
`close` or via drop-cleanup) leaves the engine-thread token slot empty, and
every subsequent shutdown invocation on the resulting connection finds the
slot empty, sends no close command, performs no join, and returns success;
in particular the drop of `self` inside a consuming `close` is a no-op. -/
theorem close_shutdown_idempotent (conn : Connection) :
    conn.close_impl.1.join_handle = none
    ∧ conn.close_impl.1.close_impl
        = (conn.close_impl.1, RResult.ok (), CloseEffects.idle)
    ∧ conn.close_impl.1.dropCleanup = (conn.close_impl.1, CloseEffects.idle)
    ∧ conn.close.2.2 = CloseEffects.idle := by
  obtain ⟨jh, ⟨cr⟩, props⟩ := conn
  cases jh with
  | none => exact ⟨rfl, rfl, rfl, rfl⟩
  | some handle =>
    obtain ⟨jr⟩ := handle
    cases cr with
    | error e => exact ⟨rfl, rfl, rfl, rfl⟩
    | ok v =>
      cases jr with
      | panicked p => exact ⟨rfl, rfl, rfl, rfl⟩
      | completed r => exact ⟨rfl, rfl, rfl, rfl⟩

/-- C2 counterexample: a connection whose engine token is present but whose
control-plane close-command send fails.  `close` does not join the engine
thread and returns the send error, not the engine's own terminal outcome
(which here is `Ok(())`). -/
theorem close_token_present_not_always_joined :
    connSendFail.join_handle = some engineOkHandle
    ∧ engineOkHandle.joinResult = JoinResult.completed (RResult.ok ())
    ∧ connSendFail.close_impl.2.2.joined = false
    ∧ connSendFail.close.1 = RResult.error sendFailErr
    ∧ connSendFail.close.1 ≠ RResult.ok () := by
  refine ⟨rfl, rfl, rfl, rfl, by decide⟩

/-- C2 (amended): for every connection whose engine-thread token is present,
if the control-plane close-command send succeeds then `close` sends the
close-connection command and joins the engine thread, and whenever the engine
thread terminated normally, `close` returns the engine's own terminal outcome
(success, or the failure that caused the engine to stop) unchanged. -/
theorem close_sends_then_joins_on_send_success
    (conn : Connection) (handle : JoinHandle)
    (h1 : conn.join_handle = some handle)
    (h2 : conn.channel0.closeConnectionResult = RResult.ok ()) :
    conn.close_impl.2.2 = { sentCloseCommand := true, joined := true }
    ∧ (∀ r, handle.joinResult = JoinResult.completed r → conn.close_impl.2.1 = r)
    ∧ conn.close.1 = conn.close_impl.2.1 := by
  obtain ⟨jh, ⟨cr⟩, props⟩ := conn
  subst h1
  subst h2
  obtain ⟨jr⟩ := handle
  cases jr with
  | panicked p =>
    refine ⟨rfl, ?_, rfl⟩
    intro r hr
    exact absurd hr (by simp [JoinHandle.joinResult])
  | completed r0 =>
    refine ⟨rfl, ?_, rfl⟩
    intro r hr
    have : r0 = r := by
      simpa [JoinHandle.joinResult] using hr
    simp [Connection.close_impl, Channel0Handle.close_connection,
      JoinHandle.join, this]

/-- C2 witness: a connection with a live token, successful close-command
send, and a normally terminated engine whose terminal outcome is a
broker-forced close error; `close` joins and returns exactly that outcome. -/
theorem close_sends_then_joins_on_send_success_witness :
    connForcedClose.close_impl.2.2 = { sentCloseCommand := true, joined := true }
    ∧ connForcedClose.close_impl.2.1
        = RResult.error
            (Error.fromKind (ErrorKind.ServerClosedConnection 320 "CONNECTION_FORCED")) := by
  have h := close_sends_then_joins_on_send_success connForcedClose
    { joinResult :=
        JoinResult.completed
          (RResult.error
            (Error.fromKind (ErrorKind.ServerClosedConnection 320 "CONNECTION_FORCED"))) }
    rfl rfl
  exact ⟨h.1, h.2.1 _ rfl⟩

/-- C4: if during the first shutdown run the close-command send succeeded and
joining the engine thread fails abnormally (the thread terminated via an
uncaught panic), `close_impl` returns an `IoThreadPanic` error whose display
text includes the textual rendition of the fault payload. -/
theorem close_join_panic_yields_io_thread_panic
    (conn : Connection) (handle : JoinHandle) (payload : String)
    (h1 : conn.join_handle = some handle)
    (h2 : conn.channel0.closeConnectionResult = RResult.ok ())
    (h3 : handle.joinResult = JoinResult.panicked payload) :
    conn.close_impl.2.1
      = RResult.error
          (Error.fromKind (ErrorKind.IoThreadPanic (formatDebug payload)))
    ∧ conn.close_impl.2.2.joined = true
    ∧ (Error.fromKind (ErrorKind.IoThreadPanic (formatDebug payload))).display
        = "I/O thread died unexpectedly: " ++ formatDebug payload
    ∧ (∃ pre suf,
        (Error.fromKind (ErrorKind.IoThreadPanic (formatDebug payload))).display
          = pre ++ formatDebug payload ++ suf) := by
  obtain ⟨jh, ⟨cr⟩, props⟩ := conn
  subst h1
  subst h2
  obtain ⟨jr⟩ := handle
  have hjr : jr = JoinResult.panicked payload := by
    simpa [JoinHandle.joinResult] using h3
  subst hjr
  refine ⟨rfl, rfl, ?_, ⟨"I/O thread died unexpectedly: ", "", ?_⟩⟩
  · rfl
  · rw [String.append_empty]
    rfl

/-- C4 witness: a connection whose engine thread panicked with payload
"engine fault"; `close_impl` returns the `IoThreadPanic` error and its text
contains the rendition. -/
theorem close_join_panic_yields_io_thread_panic_witness :
    connPanickedEngine.close_impl.2.1
      = RResult.error
          (Error.fromKind (ErrorKind.IoThreadPanic (formatDebug "engine fault")))
    ∧ (Error.fromKind (ErrorKind.IoThreadPanic (formatDebug "engine fault"))).display
        = "I/O thread died unexpectedly: " ++ formatDebug "engine fault" := by
  have h := close_join_panic_yields_io_thread_panic connPanickedEngine
    { joinResult := JoinResult.panicked "engine fault" } "engine fault" rfl rfl rfl
  exact ⟨h.1, h.2.2.1⟩

/-- C9: `close_impl` removes the engine-thread token before sending the
close-connection command; if that send fails, the error is returned without
joining the engine thread, the token is not restored, and every subsequent
`close_impl` or drop-cleanup on the resulting connection succeeds with no
action — the engine thread is never joined through this handle afterwards. -/
theorem close_send_failure_no_rollback
    (conn : Connection) (handle : JoinHandle) (e : Error)
    (h1 : conn.join_handle = some handle)
    (h2 : conn.channel0.closeConnectionResult = RResult.error e) :
    conn.close_impl
      = ({ conn with join_handle := none }, RResult.error e,
         { sentCloseCommand := true, joined := false })
    ∧ conn.close_impl.1.join_handle = none
    ∧ conn.close_impl.1.close_impl
        = (conn.close_impl.1, RResult.ok (), CloseEffects.idle)
    ∧ conn.close_impl.1.close_impl.2.2.joined = false
    ∧ conn.close_impl.1.dropCleanup = (conn.close_impl.1, CloseEffects.idle) := by
  obtain ⟨jh, ⟨cr⟩, props⟩ := conn
  subst h1
  subst h2
  exact ⟨rfl, rfl, rfl, rfl, rfl⟩

/-- C9 witness: on the concrete connection whose close-command send fails,
the first run returns the send error without joining, and the next run is a
success no-op. -/
theorem close_send_failure_no_rollback_witness :
    connSendFail.close_impl.2.1 = RResult.error sendFailErr
    ∧ connSendFail.close_impl.2.2
        = { sentCloseCommand := true, joined := false }
    ∧ connSendFail.close_impl.1.join_handle = none
    ∧ connSendFail.close_impl.1.close_impl
        = (connSendFail.close_impl.1, RResult.ok (), CloseEffects.idle) := by
  have h := close_send_failure_no_rollback connSendFail engineOkHandle
    sendFailErr rfl rfl
  exact ⟨by rw [h.1], by rw [h.1], h.2.1, h.2.2.1⟩

end Amiquip
